import Mathlib

/-!
Verification of the `cfn-custom-resource` library (src/src/lib.rs): the
CloudFormation custom-resource event/response protocol model.

Shallow embedding conventions:
* JSON documents are modelled by the inductive `Json`; a JSON object is a
  list of key/value pairs in source order.
* serde derive semantics are embedded explicitly: `rename_all = "PascalCase"`
  becomes the literal PascalCase key strings, `#[serde(skip)]` means the field
  does not appear in `serializeResponse`, and an `Option` field without
  `skip_serializing_if` serializes as JSON `null` when `None`.
* `Uuid` is 16 bytes; `Uuid.new_v4` takes the 16 random bytes explicitly
  (the effectful entropy source of the `uuid` crate made into a parameter)
  and sets the version/variant bits exactly as `Builder::from_random_bytes`
  does.
* `HashMap<String, String>` is modelled as an association list with a
  last-write-wins insert; iteration order of the Rust hash map is
  unspecified, so the model fixes a canonical order (occurrence order of
  first insertion, updated in place).
* The HTTP transport (`reqwest`) is external: `finish` is split into the
  request it builds (`CustomResourceResponse.finishRequest`) and the result
  it returns given the transport's outcome
  (`CustomResourceResponse.finishResult`). `reqwest`'s `send` resolves to
  `Ok` with the response's status code whenever an HTTP response is
  received, whatever the status, and to `Err` on connection/DNS/TLS/timeout
  failures.
-/

/-- JSON values; an object keeps its fields as an ordered association list. -/
inductive Json where
  | null : Json
  | bool (b : Bool) : Json
  | str (s : String) : Json
  | num (n : Int) : Json
  | arr (elems : List Json) : Json
  | obj (fields : List (String × Json)) : Json

/-- Look a key up in a JSON object's field list (first occurrence wins, as in
`serde_json`'s map access). -/
def lookupField : List (String × Json) → String → Option Json
  | [], _ => none
  | (k, v) :: rest, key => if k = key then some v else lookupField rest key

/-- A UUID as its 16 bytes. -/
abbrev Uuid := List Nat

/-- The character for one hex digit: `0`-`9` then lowercase `a`-`f`. -/
def hexChar (n : Nat) : Char :=
  if n < 10 then Char.ofNat (n + '0'.toNat) else Char.ofNat (n - 10 + 'a'.toNat)

/-- Two lowercase hex digits for one byte. -/
def byteHex (b : Nat) : List Char :=
  [hexChar (b / 16 % 16), hexChar (b % 16)]

/-- Lowercase hex rendering of a byte list. -/
def bytesHex (bs : List Nat) : String :=
  String.mk (bs.foldr (fun b acc => byteHex b ++ acc) [])

/-- Canonical hyphenated 8-4-4-4-12 rendering of a UUID, the wire format the
`uuid` crate serializes. -/
def Uuid.toCanonical (u : Uuid) : String :=
  bytesHex (u.take 4) ++ "-" ++ bytesHex ((u.drop 4).take 2) ++ "-" ++
  bytesHex ((u.drop 6).take 2) ++ "-" ++ bytesHex ((u.drop 8).take 2) ++ "-" ++
  bytesHex (u.drop 10)

/-- Numeric value of a hex digit character, `none` for a non-hex character. -/
def hexVal (c : Char) : Option Nat :=
  if '0' ≤ c ∧ c ≤ '9' then some (c.toNat - '0'.toNat)
  else if 'a' ≤ c ∧ c ≤ 'f' then some (c.toNat - 'a'.toNat + 10)
  else if 'A' ≤ c ∧ c ≤ 'F' then some (c.toNat - 'A'.toNat + 10)
  else none

/-- Pairs of hex digits to bytes; fails on a non-hex digit or an odd count. -/
def hexPairsToBytes : List Char → Option (List Nat)
  | [] => some []
  | c1 :: c2 :: rest => do
    let hi ← hexVal c1
    let lo ← hexVal c2
    let bs ← hexPairsToBytes rest
    pure ((hi * 16 + lo) :: bs)
  | [_] => none

/-- Parse the canonical hyphenated textual form of a UUID, the form the
`uuid` crate's deserializer accepts on the CloudFormation wire; any
malformed string yields `none`. -/
def Uuid.parse (s : String) : Option Uuid :=
  match s.splitOn "-" with
  | [a, b, c, d, e] =>
    if a.length = 8 ∧ b.length = 4 ∧ c.length = 4 ∧ d.length = 4 ∧
        e.length = 12 then
      hexPairsToBytes (a.toList ++ b.toList ++ c.toList ++ d.toList ++
        e.toList)
    else none
  | _ => none

/-- `Uuid::new_v4` of the `uuid` crate: 16 random bytes with byte 6's high
nibble forced to `4` (the version) and byte 8's top two bits forced to `10`
(the RFC 4122 variant). The crate's entropy source is the explicit `r`
argument here. -/
def Uuid.new_v4 (r : List Nat) : Uuid :=
  [r.getD 0 0 % 256, r.getD 1 0 % 256, r.getD 2 0 % 256, r.getD 3 0 % 256,
   r.getD 4 0 % 256, r.getD 5 0 % 256,
   r.getD 6 0 % 256 % 16 + 64,
   r.getD 7 0 % 256,
   r.getD 8 0 % 256 % 64 + 128,
   r.getD 9 0 % 256, r.getD 10 0 % 256, r.getD 11 0 % 256,
   r.getD 12 0 % 256, r.getD 13 0 % 256, r.getD 14 0 % 256,
   r.getD 15 0 % 256]

/-- The version number encoded in a UUID: the high nibble of byte 6. -/
def Uuid.version (u : Uuid) : Nat := u.getD 6 0 / 16

/-- Whether a UUID carries the RFC 4122 variant: byte 8's top bits are `10`. -/
def Uuid.variantRfc4122 (u : Uuid) : Bool := u.getD 8 0 / 64 = 2

/-- The inbound payload CloudFormation sends (struct `CloudformationPayload`
in lib.rs), generic over the caller-defined `resource_properties` shape. -/
structure CloudformationPayload (T : Type) where
  request_id : String
  response_url : String
  resource_type : String
  logical_resource_id : String
  stack_id : String
  physical_resource_id : Option Uuid
  resource_properties : T

/-- The two-variant response status tag (enum `ResponseType` in lib.rs). -/
inductive ResponseType where
  | Success : ResponseType
  | Failed : ResponseType
deriving DecidableEq

/-- `rename_all = "UPPERCASE"` serialization of `ResponseType`. -/
def ResponseType.serialize : ResponseType → String
  | .Success => "SUCCESS"
  | .Failed => "FAILED"

/-- The response builder (struct `CustomResourceResponse` in lib.rs). The
`data` hash map is modelled as an association list. -/
structure CustomResourceResponse where
  status : ResponseType
  reason : String
  physical_resource_id : Uuid
  stack_id : String
  request_id : String
  logical_resource_id : String
  no_echo : Option Bool
  data : Option (List (String × String))
  response_url : String

/-- `CloudformationPayload::respond_with_success`: the payload's fields are
echoed; an absent physical id falls back to `Uuid::new_v4` fed by the random
bytes `r` (the `unwrap_or_else(Uuid::new_v4)` call). -/
def CloudformationPayload.respond_with_success (p : CloudformationPayload T)
    (reason : String) (r : List Nat) : CustomResourceResponse where
  status := ResponseType.Success
  reason := reason
  physical_resource_id := p.physical_resource_id.getD (Uuid.new_v4 r)
  stack_id := p.stack_id
  request_id := p.request_id
  logical_resource_id := p.logical_resource_id
  no_echo := none
  data := none
  response_url := p.response_url

/-- `CloudformationPayload::respond_with_failure`: identical to
`respond_with_success` except for the `Failed` status. -/
def CloudformationPayload.respond_with_failure (p : CloudformationPayload T)
    (reason : String) (r : List Nat) : CustomResourceResponse where
  status := ResponseType.Failed
  reason := reason
  physical_resource_id := p.physical_resource_id.getD (Uuid.new_v4 r)
  stack_id := p.stack_id
  request_id := p.request_id
  logical_resource_id := p.logical_resource_id
  no_echo := none
  data := none
  response_url := p.response_url

/-- `CloudformationPayload::respond_with`: `Ok(_)` maps to
`respond_with_success("Success")`, `Err(e)` to `respond_with_failure` of the
error's Debug text, which the embedding abstracts as the formatter `fmt`
(Rust's `format!` with the Debug specifier applied to `e`). -/
def CloudformationPayload.respond_with (p : CloudformationPayload T)
    (result : Except E D) (fmt : E → String) (r : List Nat) :
    CustomResourceResponse :=
  match result with
  | Except.ok _ => p.respond_with_success "Success" r
  | Except.error e => p.respond_with_failure (fmt e) r

/-- `CustomResourceResponse::set_no_echo`. -/
def CustomResourceResponse.set_no_echo (resp : CustomResourceResponse)
    (value : Bool) : CustomResourceResponse :=
  { resp with no_echo := some value }

/-- `HashMap::insert` on the association-list model: replaces the value in
place when the key is present, appends otherwise (last write wins). -/
def insertData (m : List (String × String)) (k v : String) :
    List (String × String) :=
  m.filter (fun p => p.1 ≠ k) ++ [(k, v)]

/-- `CustomResourceResponse::add_data`: materializes an empty map on first
use, then inserts. -/
def CustomResourceResponse.add_data (resp : CustomResourceResponse)
    (key value : String) : CustomResourceResponse :=
  { resp with data := some (insertData (resp.data.getD []) key value) }

/-- A whole sequence of `add_data` calls, in order. -/
def CustomResourceResponse.applyAddData (resp : CustomResourceResponse)
    (calls : List (String × String)) : CustomResourceResponse :=
  calls.foldl (fun b c => b.add_data c.1 c.2) resp

/-- A whole sequence of `set_no_echo` calls, in order. -/
def CustomResourceResponse.applySetNoEcho (resp : CustomResourceResponse)
    (calls : List Bool) : CustomResourceResponse :=
  calls.foldl (fun b v => b.set_no_echo v) resp

/-- serde serialization of an `Option` field that carries no
`skip_serializing_if` attribute: `None` becomes JSON `null`. -/
def optionJson (f : A → Json) : Option A → Json
  | none => Json.null
  | some x => f x

/-- Serialization of the `data` hash map as a JSON object of strings. -/
def dataJson (m : List (String × String)) : Json :=
  Json.obj (m.map (fun p => (p.1, Json.str p.2)))

/-- The serde-derived serialization of `CustomResourceResponse`:
PascalCase keys in declaration order; `response_url` is `#[serde(skip)]`
and is absent; the `Option` fields `no_echo` and `data` have no
`skip_serializing_if` and so serialize as `null` when unset. -/
def serializeResponse (resp : CustomResourceResponse) :
    List (String × Json) :=
  [("Status", Json.str resp.status.serialize),
   ("Reason", Json.str resp.reason),
   ("PhysicalResourceId", Json.str resp.physical_resource_id.toCanonical),
   ("StackId", Json.str resp.stack_id),
   ("RequestId", Json.str resp.request_id),
   ("LogicalResourceId", Json.str resp.logical_resource_id),
   ("NoEcho", optionJson Json.bool resp.no_echo),
   ("Data", optionJson dataJson resp.data)]

/-- The string at a key of an object, `none` when the key is absent or its
value is not a string (serde fails either way on a required string field). -/
def getStr (fields : List (String × Json)) (key : String) : Option String :=
  match lookupField fields key with
  | some (Json.str s) => some s
  | _ => none

/-- Whether an `Except` is in its error case. -/
def isErr : Except E A → Bool
  | Except.error _ => true
  | Except.ok _ => false

/-- serde decoding of the `Option<Uuid>` field `physical_resource_id` from
its looked-up JSON value: an absent key or an explicit `null` decode to
`None`; a string must parse as a UUID; any other JSON value is a type
error. -/
def decodePhysicalResourceId : Option Json → Except String (Option Uuid)
  | none => Except.ok none
  | some Json.null => Except.ok none
  | some (Json.str s) =>
    match Uuid.parse s with
    | some u => Except.ok (some u)
    | none => Except.error "PhysicalResourceId is not a well-formed UUID"
  | some _ => Except.error "PhysicalResourceId has a non-string value"

/-- serde decoding of the caller's `resource_properties` shape: the
`ResourceProperties` key is required (the generic field has no default) and
its value goes through the caller-supplied decoder `dec`. -/
def decodeResourceProperties (dec : Json → Except String T)
    (fields : List (String × Json)) : Except String T :=
  match lookupField fields "ResourceProperties" with
  | none => Except.error "missing field ResourceProperties"
  | some j => dec j

/-- The serde-derived decoder of `CloudformationPayload<T>` from an object's
fields: every PascalCase-renamed string field is required,
`PhysicalResourceId` is optional, `ResourceProperties` goes through the
caller's decoder, and unknown fields are ignored (no `deny_unknown_fields`).
The model collapses serde's per-field error messages into one message; the
claims under verification only distinguish success from failure. -/
def decodePayload (dec : Json → Except String T)
    (fields : List (String × Json)) :
    Except String (CloudformationPayload T) :=
  match getStr fields "RequestId", getStr fields "ResponseURL",
      getStr fields "ResourceType", getStr fields "LogicalResourceId",
      getStr fields "StackId",
      decodePhysicalResourceId (lookupField fields "PhysicalResourceId"),
      decodeResourceProperties dec fields with
  | some rid, some rurl, some rty, some lid, some sid, Except.ok phys,
      Except.ok props =>
    Except.ok
      { request_id := rid, response_url := rurl, resource_type := rty,
        logical_resource_id := lid, stack_id := sid,
        physical_resource_id := phys, resource_properties := props }
  | _, _, _, _, _, _, _ => Except.error "payload decoding failed"

/-- The event envelope (enum `CustomResourceEvent` in lib.rs), internally
tagged by `RequestType`. -/
inductive CustomResourceEvent (T : Type) where
  | Create (data : CloudformationPayload T) : CustomResourceEvent T
  | Update (data : CloudformationPayload T) : CustomResourceEvent T
  | Delete (data : CloudformationPayload T) : CustomResourceEvent T

/-- The `RequestType` discriminator of a decoded event. -/
def CustomResourceEvent.tag : CustomResourceEvent T → String
  | .Create _ => "Create"
  | .Update _ => "Update"
  | .Delete _ => "Delete"

/-- The string value of the `RequestType` key, `none` when absent or not a
string. -/
def requestTagStr (fields : List (String × Json)) : Option String :=
  getStr fields "RequestType"

/-- Whether the `RequestType` value names one of the three variants. -/
def tagOk (fields : List (String × Json)) : Bool :=
  match requestTagStr fields with
  | some "Create" => true
  | some "Update" => true
  | some "Delete" => true
  | _ => false

/-- The serde decoder of the internally tagged `CustomResourceEvent<T>`:
the `RequestType` string selects the variant and the same object's remaining
fields feed the payload decoder; a missing tag, a non-string tag, or any
string other than the three variant names fails. -/
def decodeEvent (dec : Json → Except String T)
    (fields : List (String × Json)) :
    Except String (CustomResourceEvent T) :=
  match requestTagStr fields with
  | some "Create" => (decodePayload dec fields).map CustomResourceEvent.Create
  | some "Update" => (decodePayload dec fields).map CustomResourceEvent.Update
  | some "Delete" => (decodePayload dec fields).map CustomResourceEvent.Delete
  | _ => Except.error "unknown or missing RequestType"

/-- The spec's condition "`PhysicalResourceId` is present but not a
well-formed UUID": present means a non-null value at the key; a non-string
value is never a well-formed UUID. -/
def physIdPresentMalformed (fields : List (String × Json)) : Bool :=
  match lookupField fields "PhysicalResourceId" with
  | none => false
  | some Json.null => false
  | some (Json.str s) => (Uuid.parse s).isNone
  | some _ => true

/-- The spec's condition on the caller's property shape: the required
`ResourceProperties` key is absent, or the caller's decoder rejects its
value. -/
def resourcePropsFail (dec : Json → Except String T)
    (fields : List (String × Json)) : Bool :=
  match lookupField fields "ResourceProperties" with
  | none => true
  | some j => isErr (dec j)

/-- The decode-failure side of the spec's decoding contract (spec section
4.1), stated from the spec's words: decoding fails when the object lacks a
usable `RequestType`, when `RequestType` is not one of the three accepted
strings, when a required inbound field is missing (no string value present
for its key; `ResourceProperties` counted by `resourcePropsFail`), when
`PhysicalResourceId` is present but not a well-formed UUID, or when the
caller's property shape cannot be decoded from `ResourceProperties`. -/
def specDecodeFailure (dec : Json → Except String T)
    (fields : List (String × Json)) : Bool :=
  !(tagOk fields) ||
  ((getStr fields "RequestId").isNone ||
   ((getStr fields "ResponseURL").isNone ||
    ((getStr fields "ResourceType").isNone ||
     ((getStr fields "LogicalResourceId").isNone ||
      ((getStr fields "StackId").isNone ||
       (physIdPresentMalformed fields || resourcePropsFail dec fields))))))

/-- The transport error of the HTTP client (`reqwest::Error`), carrying its
underlying cause. -/
structure ReqwestError where
  cause : String
deriving DecidableEq

/-- The one HTTP request `finish` issues. -/
structure HttpRequest where
  method : String
  url : String
  body : List (String × Json)

/-- The request built by `CustomResourceResponse::finish`:
`client.post(&self.response_url).json(&self)` — method POST, target the
held response URL, body the serde serialization of the response. -/
def CustomResourceResponse.finishRequest (resp : CustomResourceResponse) :
    HttpRequest where
  method := "POST"
  url := resp.response_url
  body := serializeResponse resp

/-- The value `finish` returns given the transport's outcome for the sent
request: `send().await?` propagates a transport error, and any received
HTTP response — `sent` is `Except.ok` of its status code — reaches the
final `Ok(())` unchanged: the status is never inspected. -/
def CustomResourceResponse.finishResult
    (sent : Except ReqwestError Nat) : Except ReqwestError Unit :=
  match sent with
  | Except.error e => Except.error e
  | Except.ok _ => Except.ok ()

/-- Lookup in the association-list model of the `data` hash map. -/
def lookupAssoc : List (String × String) → String → Option String
  | [], _ => none
  | (k, v) :: rest, key => if k = key then some v else lookupAssoc rest key

/-- The last value written for a key by a sequence of `add_data` calls,
`none` when the key was never written. -/
def lastWrite (calls : List (String × String)) (key : String) :
    Option String :=
  calls.foldl (fun acc c => if c.1 = key then some c.2 else acc) none

/-- The map accumulated by a sequence of `add_data` calls starting from the
empty map. -/
def insertedMap (calls : List (String × String)) :
    List (String × String) :=
  calls.foldl (fun m c => insertData m c.1 c.2) []

/-- A trivial caller-side properties decoder (properties shape `Unit`),
used to evaluate the generic decoder at concrete inputs. -/
def constUnitDecoder : Json → Except String Unit :=
  fun _ => Except.ok ()

/-- A concrete UUID used to evaluate the code at explicit inputs. -/
def sampleUuid : Uuid :=
  [14, 41, 6, 44, 190, 180, 17, 224, 135, 66, 174, 5, 95, 38, 180, 62]

/-- Concrete random bytes feeding `Uuid.new_v4` at explicit inputs. -/
def sampleRand : List Nat :=
  [201, 7, 99, 255, 0, 13, 250, 68, 21, 180, 33, 4, 90, 160, 77, 129]

/-- A concrete inbound payload carrying a physical resource id. -/
def samplePayloadWithId : CloudformationPayload Unit where
  request_id := "unique id for this request"
  response_url := "https://cloudformation-custom-resource-response.example/signed"
  resource_type := "Custom::MyCustomResourceType"
  logical_resource_id := "name of resource in template"
  stack_id := "arn:aws:cloudformation:us-east-2:namespace:stack/stack-name/guid"
  physical_resource_id := some sampleUuid
  resource_properties := ()

/-- A concrete inbound payload with no physical resource id (a Create). -/
def samplePayloadNoId : CloudformationPayload Unit where
  request_id := "unique id for this create request"
  response_url := "https://cloudformation-custom-resource-response.example/signed"
  resource_type := "Custom::MyCustomResourceType"
  logical_resource_id := "name of resource in template"
  stack_id := "arn:aws:cloudformation:us-east-2:namespace:stack/stack-name/guid"
  physical_resource_id := none
  resource_properties := ()

/-- A concrete inbound object whose `RequestType` names no variant. -/
def sampleBadTagFields : List (String × Json) :=
  [("RequestType", Json.str "Patch")]

/-- A concrete well-formed inbound Delete object. -/
def sampleDeleteFields : List (String × Json) :=
  [("RequestType", Json.str "Delete"),
   ("RequestId", Json.str "unique id for this delete request"),
   ("ResponseURL", Json.str "pre-signed-url-for-delete-response"),
   ("ResourceType", Json.str "Custom::MyCustomResourceType"),
   ("LogicalResourceId", Json.str "name of resource in template"),
   ("StackId", Json.str "arn:aws:cloudformation:us-east-2:namespace:stack/s/g"),
   ("PhysicalResourceId", Json.str "0e29062c-beb4-11e0-8742-ae055f26b43e"),
   ("ResourceProperties", Json.obj [("a", Json.str "string")])]

/-- A concrete sequence of `add_data` calls with a duplicated key. -/
def sampleCalls : List (String × String) :=
  [("k1", "v1"), ("k1", "v2"), ("k2", "v3")]

/-- A concrete response builder used to evaluate the code at explicit
inputs. -/
def sampleResponse : CustomResourceResponse where
  status := ResponseType.Success
  reason := "ok"
  physical_resource_id := sampleUuid
  stack_id := "arn:aws:cloudformation:us-east-2:namespace:stack/stack-name/guid"
  request_id := "unique id for this request"
  logical_resource_id := "name of resource in template"
  no_echo := none
  data := none
  response_url := "https://cloudformation-custom-resource-response.example/signed"

/-! ## Helper lemmas -/

/-- `Except.map` preserves the error case. -/
theorem isErr_map (f : A → B) (x : Except E A) : isErr (x.map f) = isErr x := by
  cases x <;> rfl

/-- `Uuid.new_v4` always stamps version 4. -/
theorem uuid_new_v4_version (r : List Nat) :
    Uuid.version (Uuid.new_v4 r) = 4 := by
  unfold Uuid.version Uuid.new_v4
  simp [List.getD]
  omega

/-- `Uuid.new_v4` always stamps the RFC 4122 variant. -/
theorem uuid_new_v4_variant (r : List Nat) :
    Uuid.variantRfc4122 (Uuid.new_v4 r) = true := by
  unfold Uuid.variantRfc4122 Uuid.new_v4
  simp [List.getD]
  omega

/-- Inserting twice under one key equals inserting the second value once. -/
theorem insertData_insertData (m : List (String × String)) (k v1 v2 : String) :
    insertData (insertData m k v1) k v2 = insertData m k v2 := by
  simp [insertData, List.filter_append, List.filter_filter]

/-- Lookup distributes over append, first list first. -/
theorem lookupAssoc_append (l1 l2 : List (String × String)) (k : String) :
    lookupAssoc (l1 ++ l2) k =
      (match lookupAssoc l1 k with
       | some v => some v
       | none => lookupAssoc l2 k) := by
  induction l1 with
  | nil => rfl
  | cons p rest ih =>
    obtain ⟨a, b⟩ := p
    by_cases h : a = k <;> simp [lookupAssoc, h, ih]

/-- Filtering a key out makes its lookup fail. -/
theorem lookupAssoc_filter_self (m : List (String × String)) (k : String) :
    lookupAssoc (m.filter (fun p => p.1 ≠ k)) k = none := by
  induction m with
  | nil => rfl
  | cons p rest ih =>
    obtain ⟨a, b⟩ := p
    simp only [ne_eq, decide_not] at ih ⊢
    by_cases h : a = k <;> simp [List.filter_cons, h, lookupAssoc, ih]

/-- Filtering a key out leaves other lookups unchanged. -/
theorem lookupAssoc_filter_other (m : List (String × String)) (k k2 : String)
    (h : k2 ≠ k) :
    lookupAssoc (m.filter (fun p => p.1 ≠ k)) k2 = lookupAssoc m k2 := by
  induction m with
  | nil => rfl
  | cons p rest ih =>
    obtain ⟨a, b⟩ := p
    simp only [ne_eq, decide_not] at ih ⊢
    by_cases ha : a = k
    · have hak2 : a ≠ k2 := by
        rw [ha]; exact Ne.symm h
      simp [List.filter_cons, ha, lookupAssoc, hak2, ih, Ne.symm h]
    · by_cases hk2 : a = k2 <;>
        simp [List.filter_cons, ha, hk2, lookupAssoc, ih, h]

/-- Lookup after `insertData`: the inserted key maps to the new value,
all other keys are untouched. -/
theorem lookupAssoc_insertData (m : List (String × String)) (k v k2 : String) :
    lookupAssoc (insertData m k v) k2 =
      if k = k2 then some v else lookupAssoc m k2 := by
  unfold insertData
  rw [lookupAssoc_append]
  by_cases h : k = k2
  · subst h
    rw [lookupAssoc_filter_self]
    simp [lookupAssoc]
  · rw [lookupAssoc_filter_other m k k2 (Ne.symm h)]
    cases hl : lookupAssoc m k2 <;> simp [h, lookupAssoc, hl]

/-- The write-tracking fold from an arbitrary accumulator, in terms of
`lastWrite`. -/
theorem foldl_write_acc (calls : List (String × String)) (key : String)
    (a : Option String) :
    calls.foldl (fun acc c => if c.1 = key then some c.2 else acc) a =
      (match lastWrite calls key with
       | some v => some v
       | none => a) := by
  induction calls generalizing a with
  | nil => simp [lastWrite]
  | cons c rest ih =>
    simp only [List.foldl_cons, lastWrite] at ih ⊢
    rw [ih, ih (if c.1 = key then some c.2 else none)]
    by_cases h : c.1 = key <;>
      cases hr : rest.foldl (fun acc c => if c.1 = key then some c.2 else acc)
          none <;>
        simp [h, hr]

/-- `lastWrite` on a cons: later calls take precedence. -/
theorem lastWrite_cons (c : String × String) (rest : List (String × String))
    (key : String) :
    lastWrite (c :: rest) key =
      (match lastWrite rest key with
       | some v => some v
       | none => if c.1 = key then some c.2 else none) := by
  simp only [lastWrite, List.foldl_cons]
  rw [foldl_write_acc]
  rfl

/-- Folding `insertData` over a call list: lookup realizes the last write,
falling back to the initial map. -/
theorem lookupAssoc_foldl_insert (calls : List (String × String))
    (m : List (String × String)) (key : String) :
    lookupAssoc (calls.foldl (fun m c => insertData m c.1 c.2) m) key =
      (match lastWrite calls key with
       | some v => some v
       | none => lookupAssoc m key) := by
  induction calls generalizing m with
  | nil => simp [lastWrite]
  | cons c rest ih =>
    rw [List.foldl_cons, ih (insertData m c.1 c.2), lastWrite_cons]
    cases hr : lastWrite rest key <;>
      by_cases h : c.1 = key <;>
        simp [hr, h, lookupAssoc_insertData]

/-- The accumulated map realizes exactly the last write of every key. -/
theorem lookupAssoc_insertedMap (calls : List (String × String))
    (key : String) :
    lookupAssoc (insertedMap calls) key = lastWrite calls key := by
  unfold insertedMap
  rw [lookupAssoc_foldl_insert]
  cases h : lastWrite calls key <;> simp [lookupAssoc]

/-- `applyAddData` on a builder already holding a map folds `insertData`. -/
theorem applyAddData_data_some (calls : List (String × String))
    (b : CustomResourceResponse) (m0 : List (String × String))
    (h : b.data = some m0) :
    (b.applyAddData calls).data =
      some (calls.foldl (fun m c => insertData m c.1 c.2) m0) := by
  induction calls generalizing b m0 with
  | nil => simpa [CustomResourceResponse.applyAddData]
  | cons c rest ih =>
    simp only [CustomResourceResponse.applyAddData, List.foldl_cons] at ih ⊢
    exact ih _ (insertData m0 c.1 c.2)
      (by simp [CustomResourceResponse.add_data, h])

/-- A nonempty sequence of `add_data` calls on a fresh builder accumulates
exactly `insertedMap`. -/
theorem applyAddData_data_none (calls : List (String × String))
    (b : CustomResourceResponse) (h : b.data = none) (hne : calls ≠ []) :
    (b.applyAddData calls).data = some (insertedMap calls) := by
  cases calls with
  | nil => exact absurd rfl hne
  | cons c rest =>
    unfold insertedMap
    simp only [CustomResourceResponse.applyAddData, List.foldl_cons]
    exact applyAddData_data_some rest _ (insertData [] c.1 c.2)
      (by simp [CustomResourceResponse.add_data, h])

/-- After `vs ++ [v]` calls to `set_no_echo`, the flag holds `v`. -/
theorem applySetNoEcho_last (b : CustomResourceResponse) (vs : List Bool)
    (v : Bool) :
    (b.applySetNoEcho (vs ++ [v])).no_echo = some v := by
  simp [CustomResourceResponse.applySetNoEcho, List.foldl_append,
    CustomResourceResponse.set_no_echo]

/-- A set `no_echo` serializes under the `NoEcho` key. -/
theorem serialize_noEcho_some (b : CustomResourceResponse) (v : Bool)
    (h : b.no_echo = some v) :
    lookupField (serializeResponse b) "NoEcho" = some (Json.bool v) := by
  simp [serializeResponse, lookupField, h, optionJson]

/-- A present data map serializes under the `Data` key. -/
theorem serialize_data_some (b : CustomResourceResponse)
    (m : List (String × String)) (h : b.data = some m) :
    lookupField (serializeResponse b) "Data" = some (dataJson m) := by
  simp [serializeResponse, lookupField, h, optionJson]

/-- The payload decoder fails exactly when one of its seven field decodes
fails. -/
theorem isErr_decodePayload (dec : Json → Except String T)
    (flds : List (String × Json)) :
    isErr (decodePayload dec flds) =
      ((getStr flds "RequestId").isNone ||
       ((getStr flds "ResponseURL").isNone ||
        ((getStr flds "ResourceType").isNone ||
         ((getStr flds "LogicalResourceId").isNone ||
          ((getStr flds "StackId").isNone ||
           (isErr (decodePhysicalResourceId
              (lookupField flds "PhysicalResourceId")) ||
            isErr (decodeResourceProperties dec flds))))))) := by
  unfold decodePayload
  cases h1 : getStr flds "RequestId" <;>
  cases h2 : getStr flds "ResponseURL" <;>
  cases h3 : getStr flds "ResourceType" <;>
  cases h4 : getStr flds "LogicalResourceId" <;>
  cases h5 : getStr flds "StackId" <;>
  cases h6 : decodePhysicalResourceId (lookupField flds "PhysicalResourceId") <;>
  cases h7 : decodeResourceProperties dec flds <;>
  simp [isErr]

/-- The physical-id field decoder fails exactly on the spec's
present-but-malformed condition. -/
theorem isErr_decodePhysicalResourceId (flds : List (String × Json)) :
    isErr (decodePhysicalResourceId (lookupField flds "PhysicalResourceId")) =
      physIdPresentMalformed flds := by
  unfold physIdPresentMalformed
  match hl : lookupField flds "PhysicalResourceId" with
  | none => rfl
  | some Json.null => rfl
  | some (Json.str s) =>
    cases h : Uuid.parse s <;> simp [decodePhysicalResourceId, h, isErr]
  | some (Json.bool b) => rfl
  | some (Json.num n) => rfl
  | some (Json.arr l) => rfl
  | some (Json.obj l) => rfl

/-- The properties decode fails exactly on the spec's condition. -/
theorem isErr_decodeResourceProperties (dec : Json → Except String T)
    (flds : List (String × Json)) :
    isErr (decodeResourceProperties dec flds) = resourcePropsFail dec flds := by
  unfold decodeResourceProperties resourcePropsFail
  cases lookupField flds "ResourceProperties" <;> rfl

/-- The event decoder fails exactly when the tag is unusable or the payload
decode fails. -/
theorem isErr_decodeEvent (dec : Json → Except String T)
    (flds : List (String × Json)) :
    isErr (decodeEvent dec flds) =
      (!(tagOk flds) || isErr (decodePayload dec flds)) := by
  unfold decodeEvent tagOk
  split <;>
    first
    | (rw [isErr_map]; simp_all)
    | simp [isErr]

/-! ## Claims -/

/-- C1: the upload request built by `finish` targets the builder's held
response URL with the serialized JSON response document as its body, but its
verb is POST, not the PUT the CloudFormation protocol (and the claim)
requires — the spec itself flags the observed POST as a source bug. -/
theorem finish_sends_post_not_put (b : CustomResourceResponse) :
    b.finishRequest.method = "POST" ∧
    b.finishRequest.method ≠ "PUT" ∧
    b.finishRequest.url = b.response_url ∧
    b.finishRequest.body = serializeResponse b := by
  refine ⟨rfl, ?_, rfl, rfl⟩
  intro h
  simp [CustomResourceResponse.finishRequest] at h

/-- C2 counterexample: an HTTP response with the non-2xx status 500 still
makes `finish` return the no-value success, because
`client.post(..).json(..).send().await?` never inspects the status; the
claim's "non-2xx HTTP status is returned as a transport error" is false. -/
theorem finish_ok_on_status_500 :
    CustomResourceResponse.finishResult (Except.ok 500) = Except.ok () ∧
    ¬(200 ≤ 500 ∧ 500 ≤ 299) :=
  ⟨rfl, by decide⟩

/-- C2 amended: `finish` returns the no-value success exactly when the
transport delivers any HTTP response, whatever its status; a transport
failure (network, DNS, TLS, timeout) is returned as the single
transport-error kind carrying the underlying cause. -/
theorem finish_result_ignores_status (status : Nat) (e : ReqwestError) :
    CustomResourceResponse.finishResult (Except.ok status) = Except.ok () ∧
    CustomResourceResponse.finishResult (Except.error e) = Except.error e :=
  ⟨rfl, rfl⟩

/-- C3: all three response constructors echo a present
`physical_resource_id` verbatim and fall back to a freshly generated
version-4 (RFC 4122 variant) UUID when it is absent. -/
theorem physical_resource_id_policy {T E D : Type}
    (p : CloudformationPayload T) (reason : String) (result : Except E D)
    (fmt : E → String) (r : List Nat) :
    (∀ u, p.physical_resource_id = some u →
      (p.respond_with_success reason r).physical_resource_id = u ∧
      (p.respond_with_failure reason r).physical_resource_id = u ∧
      (p.respond_with result fmt r).physical_resource_id = u) ∧
    (p.physical_resource_id = none →
      ((p.respond_with_success reason r).physical_resource_id =
        Uuid.new_v4 r ∧
       (p.respond_with_failure reason r).physical_resource_id =
        Uuid.new_v4 r ∧
       (p.respond_with result fmt r).physical_resource_id =
        Uuid.new_v4 r) ∧
      Uuid.version (Uuid.new_v4 r) = 4 ∧
      Uuid.variantRfc4122 (Uuid.new_v4 r) = true) := by
  constructor
  · intro u h
    refine ⟨?_, ?_, ?_⟩ <;>
      cases result <;>
        simp [CloudformationPayload.respond_with,
          CloudformationPayload.respond_with_success,
          CloudformationPayload.respond_with_failure, h]
  · intro h
    refine ⟨⟨?_, ?_, ?_⟩, uuid_new_v4_version r, uuid_new_v4_variant r⟩ <;>
      cases result <;>
        simp [CloudformationPayload.respond_with,
          CloudformationPayload.respond_with_success,
          CloudformationPayload.respond_with_failure, h]

/-- C3 witness: the policy evaluated at concrete payloads, one carrying a
physical id and one without. -/
theorem physical_resource_id_policy_witness :
    (samplePayloadWithId.respond_with_success "ok" sampleRand).physical_resource_id =
      sampleUuid ∧
    (samplePayloadNoId.respond_with_failure "bad" sampleRand).physical_resource_id =
      Uuid.new_v4 sampleRand ∧
    Uuid.version (Uuid.new_v4 sampleRand) = 4 :=
  ⟨((physical_resource_id_policy samplePayloadWithId "ok"
      (Except.ok () : Except Unit Unit) (fun _ => "") sampleRand).1
      sampleUuid rfl).1,
   (((physical_resource_id_policy samplePayloadNoId "bad"
      (Except.ok () : Except Unit Unit) (fun _ => "") sampleRand).2
      rfl).1).2.1,
   (((physical_resource_id_policy samplePayloadNoId "bad"
      (Except.ok () : Except Unit Unit) (fun _ => "") sampleRand).2
      rfl).2).1⟩

/-- C4: `respond_with` maps an ok result to
`respond_with_success("Success")` — status SUCCESS, reason `Success` — and
an error result to `respond_with_failure` of the error's text form — status
FAILED, reason equal to that text. -/
theorem respond_with_maps_result {T E D : Type} (p : CloudformationPayload T)
    (fmt : E → String) (r : List Nat) (d : D) (e : E) :
    p.respond_with (Except.ok d) fmt r = p.respond_with_success "Success" r ∧
    (p.respond_with_success "Success" r).status = ResponseType.Success ∧
    (p.respond_with_success "Success" r).reason = "Success" ∧
    p.respond_with (Except.error e : Except E D) fmt r =
      p.respond_with_failure (fmt e) r ∧
    (p.respond_with_failure (fmt e) r).status = ResponseType.Failed ∧
    (p.respond_with_failure (fmt e) r).reason = fmt e :=
  ⟨rfl, rfl, rfl, rfl, rfl, rfl⟩

/-- C5: the serialized body has no `ResponseURL` key, and the serialization
of a builder does not depend on its `response_url` field. -/
theorem response_url_not_serialized (b : CustomResourceResponse)
    (u1 u2 : String) :
    lookupField (serializeResponse b) "ResponseURL" = none ∧
    serializeResponse { b with response_url := u1 } =
      serializeResponse { b with response_url := u2 } := by
  constructor
  · simp [serializeResponse, lookupField]
  · rfl

/-- C6: a successfully decoded event's variant matches the `RequestType`
string exactly; each accepted tag selects its variant's payload decode, and
a missing, non-string, or unrecognized `RequestType` fails decoding. -/
theorem event_variant_matches_request_type {T : Type}
    (dec : Json → Except String T) (flds : List (String × Json)) :
    (∀ e : CustomResourceEvent T, decodeEvent dec flds = Except.ok e →
      requestTagStr flds = some e.tag) ∧
    (requestTagStr flds = some "Create" →
      decodeEvent dec flds =
        (decodePayload dec flds).map CustomResourceEvent.Create) ∧
    (requestTagStr flds = some "Update" →
      decodeEvent dec flds =
        (decodePayload dec flds).map CustomResourceEvent.Update) ∧
    (requestTagStr flds = some "Delete" →
      decodeEvent dec flds =
        (decodePayload dec flds).map CustomResourceEvent.Delete) ∧
    (tagOk flds = false → isErr (decodeEvent dec flds) = true) := by
  refine ⟨?_, ?_, ?_, ?_, ?_⟩
  · intro e h
    unfold decodeEvent at h
    split at h
    case _ heq =>
      cases hp : decodePayload dec flds <;> rw [hp] at h <;>
        simp [Except.map] at h
      subst h; simpa [CustomResourceEvent.tag]
    case _ heq =>
      cases hp : decodePayload dec flds <;> rw [hp] at h <;>
        simp [Except.map] at h
      subst h; simpa [CustomResourceEvent.tag]
    case _ heq =>
      cases hp : decodePayload dec flds <;> rw [hp] at h <;>
        simp [Except.map] at h
      subst h; simpa [CustomResourceEvent.tag]
    case _ => simp at h
  · intro h
    simp [decodeEvent, h]
  · intro h
    simp [decodeEvent, h]
  · intro h
    simp [decodeEvent, h]
  · intro h
    unfold tagOk at h
    unfold decodeEvent
    split <;> simp_all [isErr]

/-- C6 witness: a tag outside the three variant names fails decoding, and a
concrete Delete document decodes through the Delete arm. -/
theorem event_variant_matches_request_type_witness :
    isErr (decodeEvent constUnitDecoder sampleBadTagFields) = true ∧
    decodeEvent constUnitDecoder sampleDeleteFields =
      (decodePayload constUnitDecoder sampleDeleteFields).map
        CustomResourceEvent.Delete :=
  ⟨(event_variant_matches_request_type constUnitDecoder
      sampleBadTagFields).2.2.2.2 rfl,
   (event_variant_matches_request_type constUnitDecoder
      sampleDeleteFields).2.2.2.1 rfl⟩

/-- C7 counterexample: on a builder with no `add_data` call the serialized
body does carry a `Data` key — mapped to `null`, because the `Option` field
has no `skip_serializing_if` attribute — so "the serialized body has no
`Data` key" is false. -/
theorem data_key_present_when_unset :
    sampleResponse.data = none ∧
    lookupField (serializeResponse sampleResponse) "Data" = some Json.null ∧
    lookupField (serializeResponse sampleResponse) "Data" ≠ none := by
  refine ⟨rfl, rfl, ?_⟩
  intro h
  rw [show lookupField (serializeResponse sampleResponse) "Data" =
    some Json.null from rfl] at h
  exact Option.noConfusion h

/-- C7 amended: with no `add_data` call the serialized body maps `Data` to
`null`; after a nonempty sequence of calls, `Data` is the object holding
exactly the inserted entries, a duplicated key holding the last value
written, and `add_data(k,v1)` then `add_data(k,v2)` equals
`add_data(k,v2)`. -/
theorem add_data_semantics (b : CustomResourceResponse)
    (h : b.data = none) :
    lookupField (serializeResponse b) "Data" = some Json.null ∧
    (∀ k v1 v2, (b.add_data k v1).add_data k v2 = b.add_data k v2) ∧
    (∀ calls : List (String × String), calls ≠ [] →
      (b.applyAddData calls).data = some (insertedMap calls) ∧
      lookupField (serializeResponse (b.applyAddData calls)) "Data" =
        some (dataJson (insertedMap calls)) ∧
      ∀ key, lookupAssoc (insertedMap calls) key = lastWrite calls key) := by
  refine ⟨?_, ?_, ?_⟩
  · simp [serializeResponse, lookupField, h, optionJson]
  · intro k v1 v2
    simp [CustomResourceResponse.add_data, insertData_insertData]
  · intro calls hne
    have hd := applyAddData_data_none calls b h hne
    exact ⟨hd, serialize_data_some _ _ hd,
      fun key => lookupAssoc_insertedMap calls key⟩

/-- C7 witness: the amended data semantics evaluated on a concrete builder
and call sequence with a duplicated key. -/
theorem add_data_semantics_witness :
    (sampleResponse.applyAddData sampleCalls).data =
      some (insertedMap sampleCalls) ∧
    lookupAssoc (insertedMap sampleCalls) "k1" = lastWrite sampleCalls "k1" ∧
    lookupField (serializeResponse sampleResponse) "Data" = some Json.null :=
  ⟨((add_data_semantics sampleResponse rfl).2.2 sampleCalls
      (by simp [sampleCalls])).1,
   ((add_data_semantics sampleResponse rfl).2.2 sampleCalls
      (by simp [sampleCalls])).2.2 "k1",
   (add_data_semantics sampleResponse rfl).1⟩

/-- C8 counterexample: on a builder where `set_no_echo` was never called the
serialized body does carry a `NoEcho` key — mapped to `null`, because the
`Option` field has no `skip_serializing_if` attribute — so "the serialized
body has no `NoEcho` key" is false. -/
theorem no_echo_key_present_when_unset :
    sampleResponse.no_echo = none ∧
    lookupField (serializeResponse sampleResponse) "NoEcho" =
      some Json.null ∧
    lookupField (serializeResponse sampleResponse) "NoEcho" ≠ none := by
  refine ⟨rfl, rfl, ?_⟩
  intro h
  rw [show lookupField (serializeResponse sampleResponse) "NoEcho" =
    some Json.null from rfl] at h
  exact Option.noConfusion h

/-- C8 amended: with `set_no_echo` never called the serialized body maps
`NoEcho` to `null`; after any nonempty sequence of `set_no_echo` calls the
flag and the serialized `NoEcho` equal the last value written. -/
theorem set_no_echo_semantics (b : CustomResourceResponse)
    (h : b.no_echo = none) :
    lookupField (serializeResponse b) "NoEcho" = some Json.null ∧
    (∀ v, (b.set_no_echo v).no_echo = some v) ∧
    (∀ (vs : List Bool) (v : Bool),
      (b.applySetNoEcho (vs ++ [v])).no_echo = some v ∧
      lookupField (serializeResponse (b.applySetNoEcho (vs ++ [v])))
        "NoEcho" = some (Json.bool v)) := by
  refine ⟨?_, ?_, ?_⟩
  · simp [serializeResponse, lookupField, h, optionJson]
  · intro v
    rfl
  · intro vs v
    exact ⟨applySetNoEcho_last b vs v,
      serialize_noEcho_some _ v (applySetNoEcho_last b vs v)⟩

/-- C8 witness: the amended NoEcho semantics at a concrete builder with the
call sequence true-then-false. -/
theorem set_no_echo_semantics_witness :
    lookupField (serializeResponse sampleResponse) "NoEcho" =
      some Json.null ∧
    (sampleResponse.applySetNoEcho ([true] ++ [false])).no_echo =
      some false ∧
    lookupField
      (serializeResponse (sampleResponse.applySetNoEcho ([true] ++ [false])))
      "NoEcho" = some (Json.bool false) :=
  ⟨(set_no_echo_semantics sampleResponse rfl).1,
   ((set_no_echo_semantics sampleResponse rfl).2.2 [true] false).1,
   ((set_no_echo_semantics sampleResponse rfl).2.2 [true] false).2⟩

/-- C9: decoding an inbound object fails exactly under the spec's
conditions — unusable or unrecognized `RequestType`, a required inbound
field missing, `PhysicalResourceId` present but not a well-formed UUID, or
the caller's property shape undecodable from `ResourceProperties`; unknown
fields trigger none of these conditions and so never cause failure. -/
theorem decode_failure_conditions {T : Type} (dec : Json → Except String T)
    (flds : List (String × Json)) :
    isErr (decodeEvent dec flds) = specDecodeFailure dec flds := by
  rw [isErr_decodeEvent, isErr_decodePayload,
    isErr_decodePhysicalResourceId, isErr_decodeResourceProperties]
  rfl

/-- C10: on a payload carrying a physical id, `respond_with_success` and
`respond_with_failure` with one reason agree on every field except the
status, which is SUCCESS for the former and FAILED for the latter; both
leave `no_echo` and `data` unset. -/
theorem success_failure_differ_only_in_status {T : Type}
    (p : CloudformationPayload T) (u : Uuid) (reason : String)
    (r : List Nat) (h : p.physical_resource_id = some u) :
    p.respond_with_failure reason r =
      { p.respond_with_success reason r with status := ResponseType.Failed } ∧
    (p.respond_with_success reason r).status = ResponseType.Success ∧
    (p.respond_with_failure reason r).status = ResponseType.Failed ∧
    (p.respond_with_success reason r).reason = reason ∧
    (p.respond_with_success reason r).physical_resource_id = u ∧
    (p.respond_with_success reason r).no_echo = none ∧
    (p.respond_with_success reason r).data = none := by
  refine ⟨rfl, rfl, rfl, rfl, ?_, rfl, rfl⟩
  simp [CloudformationPayload.respond_with_success, h]

/-- C10 witness: the frame property evaluated at a concrete payload carrying
a physical id. -/
theorem success_failure_differ_only_in_status_witness :
    samplePayloadWithId.respond_with_failure "done" sampleRand =
      { samplePayloadWithId.respond_with_success "done" sampleRand with
          status := ResponseType.Failed } ∧
    (samplePayloadWithId.respond_with_success "done" sampleRand).status =
      ResponseType.Success ∧
    (samplePayloadWithId.respond_with_failure "done" sampleRand).status =
      ResponseType.Failed ∧
    (samplePayloadWithId.respond_with_success "done" sampleRand).reason =
      "done" ∧
    (samplePayloadWithId.respond_with_success "done" sampleRand).physical_resource_id =
      sampleUuid ∧
    (samplePayloadWithId.respond_with_success "done" sampleRand).no_echo =
      none ∧
    (samplePayloadWithId.respond_with_success "done" sampleRand).data =
      none :=
  success_failure_differ_only_in_status samplePayloadWithId sampleUuid
    "done" sampleRand rfl
